import Mathlib

/-!
Shallow embedding of `src/assets/models/download_model.py` from the
repository `achmadarw/tia_security_mobile`, together with theorems that
settle the specification claims about it.

The script is a sequential procedure: print a banner and instructions,
read one line of interactive input, optionally perform one blocking
download (`urllib.request.urlretrieve`) followed by a file-size query
(`os.path.getsize`), and print the remaining instructions.

Modelling choices:
* External effects (the line typed at the prompt, the outcome of
  `urlretrieve`, the outcome of `os.path.getsize`) are supplied by an
  oracle environment `Env`; each may succeed or raise, matching the
  Python calls which can raise arbitrary exceptions.
* The local filesystem is a map from path to the size of the file
  stored there (`FS`); `urlretrieve url filename` writes only at
  `filename`, possibly leaving a partial file when it fails.
* Every `print(...)` is recorded as one structured output message.
  The success line `print(f"... {file_size:.2f} MB")` formats a binary
  float to two decimals; the message carries the exact rational value
  `bytes / (1024 * 1024)` computed by the source, abstracting only the
  float-to-decimal rendering.
* `str.lower` is modelled on ASCII letters (`Char.toLower`), which
  covers every input the program compares against.
* Python raising an exception inside the `try` block is modelled by the
  oracle returning an error value; `download_model` is a total function,
  reflecting that its `except Exception` clause lets no exception escape.
-/

/-- The local filesystem: each path maps to the byte size of the file
stored there, or `none` when no file exists at that path. -/
def FS : Type := String → Option Nat

/-- Outcome of a call to `urllib.request.urlretrieve(url, filename)`:
either the transfer completes and a file of `size` bytes is written at
`filename`, or an exception with message `msg` is raised, in which case
a partial file of `partialSize` bytes may have been left at `filename`
(or none at all). -/
inductive RetrieveOutcome : Type where
  | ok (size : Nat) : RetrieveOutcome
  | err (msg : String) (partialSize : Option Nat) : RetrieveOutcome
deriving DecidableEq

/-- Oracle environment for one run of the script: the line returned by
`input(...)` (without its trailing newline), the outcome of
`urllib.request.urlretrieve` per (url, filename), and the outcome of
`os.path.getsize` per path (either the byte size, or the message of the
`OSError` it raises). -/
structure Env : Type where
  inputLine : String
  retrieve : String → String → RetrieveOutcome
  getsize : String → Except String Nat

/-- Effect of a `urlretrieve(url, filename)` call on the filesystem:
a completed transfer stores the downloaded file at `filename`; a failed
transfer stores the partial file there when one was written, and leaves
the filesystem untouched otherwise. No other path is modified. -/
def applyRetrieve (fs : FS) (filename : String) : RetrieveOutcome → FS
  | RetrieveOutcome.ok n => fun p => if p = filename then some n else fs p
  | RetrieveOutcome.err _ none => fs
  | RetrieveOutcome.err _ (some n) => fun p => if p = filename then some n else fs p

/-- One recorded output line. `line s` models `print(s)` (and the prompt
text written by `input`); `sizeReport sizeMB` models
`print(f"✓ Downloaded successfully: {file_size:.2f} MB")`, carrying the
exact rational number of megabytes the source computes as
`os.path.getsize(filename) / (1024 * 1024)`. -/
inductive Msg : Type where
  | line (s : String) : Msg
  | sizeReport (sizeMB : ℚ) : Msg
deriving DecidableEq

/-- The ASCII apostrophe character, used in two printed strings of the
source. -/
def apos : String := String.singleton (Char.ofNat 39)

/-- Models Python `str.lower()` on ASCII letters, the only characters
the program ever compares the lowered input against. -/
def pyLower (s : String) : String := String.mk (s.data.map Char.toLower)

/-- The string `"=" * 60` from the source. -/
def bar60 : String := String.mk (List.replicate 60 '=')

/-- The string `"-" * 60` from the source. -/
def dash60 : String := String.mk (List.replicate 60 '-')

/-- The global `MODEL_SOURCES` list of the script: two source
descriptors, each a Python dict literal with keys `name`, `url`,
`filename` and `note`, embedded as an association list in the order the
keys are written in the source. -/
def MODEL_SOURCES : List (List (String × String)) :=
  [ [ ("name", "FaceNet MobileNet (Recommended)"),
      ("url", "https://github.com/sirius-ai/MobileFaceNet_TF/raw/master/arch/pretrained_model/MobileFaceNet_9925_9680.ckpt.data-00000-of-00001"),
      ("filename", "mobilefacenet_checkpoint.data"),
      ("note", "Needs conversion to TFLite") ],
    [ ("name", "Alternative - Use pre-converted model"),
      ("url", "https://storage.googleapis.com/mediapipe-models/face_landmarker/face_landmarker/float16/latest/face_landmarker.task"),
      ("filename", "face_landmarker.task"),
      ("note", "MediaPipe model") ] ]

/-- Python dict subscription `d[k]` on an embedded dict. Every lookup
the program performs is on a key that is present; the `""` default is
never reached (Python would raise `KeyError` there). -/
def dictGet (d : List (String × String)) (k : String) : String :=
  match d.find? (fun kv => kv.fst == k) with
  | some kv => kv.snd
  | none => ""

/-- Result of a call to `download_model`: the boolean return value, the
lines it printed, the network calls it performed (url, filename pairs
passed to `urlretrieve`), and the filesystem after the call. -/
structure DLResult : Type where
  success : Bool
  output : List Msg
  calls : List (String × String)
  fs : FS

/-- Embedding of the Python function `download_model(url, filename)`:
print the two header lines, call `urlretrieve(url, filename)`, then
compute `os.path.getsize(filename) / (1024 * 1024)` and print the
success line and return `True`; if either call raises, the
`except Exception` clause prints the failure line with the exception
message and returns `False`. -/
def download_model (env : Env) (fs : FS) (url filename : String) : DLResult :=
  let header : List Msg :=
    [ Msg.line ("Downloading " ++ filename ++ "..."),
      Msg.line ("From: " ++ url) ]
  match env.retrieve url filename with
  | RetrieveOutcome.err e p =>
      { success := false
        output := header ++ [Msg.line ("✗ Failed: " ++ e)]
        calls := [(url, filename)]
        fs := applyRetrieve fs filename (RetrieveOutcome.err e p) }
  | RetrieveOutcome.ok n =>
      match env.getsize filename with
      | Except.error e =>
          { success := false
            output := header ++ [Msg.line ("✗ Failed: " ++ e)]
            calls := [(url, filename)]
            fs := applyRetrieve fs filename (RetrieveOutcome.ok n) }
      | Except.ok bytes =>
          { success := true
            output := header ++ [Msg.sizeReport ((bytes : ℚ) / (1024 * 1024))]
            calls := [(url, filename)]
            fs := applyRetrieve fs filename (RetrieveOutcome.ok n) }

/-- Program state threaded through `main`: the filesystem and the
current value of the module-level `MODEL_SOURCES` list. -/
structure PState : Type where
  fs : FS
  sources : List (List (String × String))

/-- Result of a run of `main`: everything printed, the network calls
performed, the final filesystem, and the final value of the
`MODEL_SOURCES` list. -/
structure RunResult : Type where
  output : List Msg
  calls : List (String × String)
  fs : FS
  sources : List (List (String × String))

/-- The lines `main` prints before reading input, ending with the
prompt text written by `input(...)`. -/
def preLines : List Msg :=
  [ Msg.line bar60,
    Msg.line ("MobileFaceNet Model Downloader"),
    Msg.line bar60,
    Msg.line ("\n⚠️  IMPORTANT:"),
    Msg.line ("The original MobileFaceNet_TF repository doesn" ++ apos ++ "t provide"),
    Msg.line ("a pre-converted TFLite model. You have 3 options:\n"),
    Msg.line ("Option 1: Manual Download (RECOMMENDED)"),
    Msg.line dash60,
    Msg.line ("1. Visit: https://github.com/kby-ai/FaceRecognition-Flutter"),
    Msg.line ("2. Navigate to: android/app/src/main/assets/"),
    Msg.line ("3. Download: mobile_face_net.tflite"),
    Msg.line ("4. Save as: mobilefacenet.tflite (in this folder)\n"),
    Msg.line ("Option 2: Use Alternative Model"),
    Msg.line dash60,
    Msg.line ("Download MediaPipe Face Landmarker (recommended for testing)"),
    Msg.line ("Download MediaPipe model? (y/n): ") ]

/-- The lines `main` prints inside `if success:` after a successful
download. -/
def successLines : List Msg :=
  [ Msg.line ("\n✓ Model downloaded!"),
    Msg.line ("Note: This is a face detection model, not recognition."),
    Msg.line ("You" ++ apos ++ "ll need to modify the code to use it.\n") ]

/-- The lines `main` prints after the `if choice == 'y':` block:
Option 3 and the closing banner. -/
def postLines : List Msg :=
  [ Msg.line ("\nOption 3: Convert TensorFlow Model to TFLite"),
    Msg.line dash60,
    Msg.line ("1. Clone: git clone https://github.com/sirius-ai/MobileFaceNet_TF"),
    Msg.line ("2. Install TensorFlow: pip install tensorflow"),
    Msg.line ("3. Convert using TFLite Converter"),
    Msg.line ("4. See: CONVERSION_GUIDE.md (to be created)\n"),
    Msg.line bar60,
    Msg.line ("For now, please manually download the model:"),
    Msg.line ("https://github.com/kby-ai/FaceRecognition-Flutter/raw/main/android/app/src/main/assets/mobile_face_net.tflite"),
    Msg.line ("\nSave it as: mobilefacenet.tflite"),
    Msg.line bar60 ]

/-- Embedding of the Python function `main()`: print the banner and the
first two options, read `choice = input(...).lower()`; if `choice ==
'y'`, call `download_model(MODEL_SOURCES[1]['url'],
MODEL_SOURCES[1]['filename'])` and, when it succeeds, print the success
note; in every case print Option 3 and the closing banner. The
function is total: it always runs to the end and returns. -/
def main_run (env : Env) (st : PState) : RunResult :=
  let choice := pyLower env.inputLine
  let src1 := (st.sources.get? 1).getD []
  if choice = "y" then
    let dl := download_model env st.fs (dictGet src1 ("url")) (dictGet src1 ("filename"))
    let mid := if dl.success then successLines else []
    { output := preLines ++ dl.output ++ mid ++ postLines
      calls := dl.calls
      fs := dl.fs
      sources := st.sources }
  else
    { output := preLines ++ postLines
      calls := []
      fs := st.fs
      sources := st.sources }

/-- A full run of the script (`if __name__ == '__main__': main()`):
`main` starts from the module-level `MODEL_SOURCES` list and the
ambient filesystem. -/
def program_run (env : Env) (fs : FS) : RunResult :=
  main_run env { fs := fs, sources := MODEL_SOURCES }

/-- The second hardcoded source URL, `MODEL_SOURCES[1]['url']`. -/
def mediapipeUrl : String :=
  "https://storage.googleapis.com/mediapipe-models/face_landmarker/face_landmarker/float16/latest/face_landmarker.task"

/-- Evaluating the lookup `MODEL_SOURCES[1]['url']`. -/
lemma src1_url :
    dictGet ((MODEL_SOURCES.get? 1).getD []) ("url") = mediapipeUrl := by
  decide

/-- Evaluating the lookup `MODEL_SOURCES[1]['filename']`. -/
lemma src1_filename :
    dictGet ((MODEL_SOURCES.get? 1).getD []) ("filename") = "face_landmarker.task" := by
  decide

/-- A call to `download_model` performs exactly one `urlretrieve` call,
on the url and filename it was given. -/
lemma dm_calls (env : Env) (fs : FS) (u f : String) :
    (download_model env fs u f).calls = [(u, f)] := by
  cases hR : env.retrieve u f
  case ok n => cases hG : env.getsize f <;> simp [download_model, hR, hG]
  case err e p => simp [download_model, hR]

/-- A call to `download_model` leaves every path other than its
destination filename untouched. -/
lemma dm_fs_frame (env : Env) (fs : FS) (u f p : String) (hp : p ≠ f) :
    (download_model env fs u f).fs p = fs p := by
  cases hR : env.retrieve u f
  case ok n =>
    cases hG : env.getsize f <;>
      simp [download_model, applyRetrieve, hR, hG, hp]
  case err e ps =>
    cases ps <;> simp [download_model, applyRetrieve, hR, hp]

/-- When `download_model` returns `False`, the failure line with the
exception message is among its printed output. -/
lemma dm_fail_line (env : Env) (fs : FS) (u f : String)
    (h : (download_model env fs u f).success = false) :
    ∃ e, Msg.line ("✗ Failed: " ++ e) ∈ (download_model env fs u f).output := by
  cases hR : env.retrieve u f
  case err e p => exact ⟨e, by simp [download_model, hR]⟩
  case ok n =>
    cases hG : env.getsize f
    case error e => exact ⟨e, by simp [download_model, hR, hG]⟩
    case ok b => simp [download_model, hR, hG] at h

/-- Normal form of a run whose lowered input is `"y"`: the download of
`MODEL_SOURCES[1]` happens and everything else is the fixed print
script. -/
lemma program_run_y (env : Env) (fs : FS)
    (hy : pyLower env.inputLine = "y") :
    program_run env fs =
      { output := preLines
          ++ (download_model env fs mediapipeUrl ("face_landmarker.task")).output
          ++ (if (download_model env fs mediapipeUrl ("face_landmarker.task")).success
              then successLines else [])
          ++ postLines
        calls := [(mediapipeUrl, "face_landmarker.task")]
        fs := (download_model env fs mediapipeUrl ("face_landmarker.task")).fs
        sources := MODEL_SOURCES } := by
  unfold program_run main_run
  simp only [hy, if_pos, dm_calls]
  rfl

/-- Normal form of a run whose lowered input is not `"y"`: no download
happens and the filesystem is unchanged. -/
lemma program_run_not_y (env : Env) (fs : FS)
    (hy : pyLower env.inputLine ≠ "y") :
    program_run env fs =
      { output := preLines ++ postLines
        calls := []
        fs := fs
        sources := MODEL_SOURCES } := by
  unfold program_run main_run
  simp only [hy, if_false]

/-- Shared empty filesystem for the concrete witnesses below. -/
def fs0 : FS := fun _ => none

/-- Concrete environment for the C1 witness: the prompt answer is
`"y"` and the download succeeds. -/
def envC1 : Env :=
  { inputLine := "y"
    retrieve := fun _ _ => RetrieveOutcome.ok 1024
    getsize := fun _ => Except.ok 1024 }

/-- C1: in every run where the line read at the prompt is `"y"`, the
program performs exactly one network download call, whose URL is the
second hardcoded source URL and whose destination filename is
`face_landmarker.task`. -/
theorem prompt_y_downloads_second_source (env : Env) (fs : FS)
    (h : env.inputLine = "y") :
    (program_run env fs).calls = [(mediapipeUrl, "face_landmarker.task")] := by
  have hy : pyLower env.inputLine = "y" := by rw [h]; rfl
  rw [program_run_y env fs hy]

/-- Witness for C1 at a concrete environment. -/
theorem prompt_y_downloads_second_source_witness :
    (program_run envC1 fs0).calls = [(mediapipeUrl, "face_landmarker.task")] :=
  prompt_y_downloads_second_source envC1 fs0 rfl

/-- Concrete environment for the C2 counterexample: the prompt answer
is `"Y"`, which is not `"y"`, yet `.lower()` maps it to `"y"` and the
download runs. -/
def envC2 : Env :=
  { inputLine := "Y"
    retrieve := fun _ _ => RetrieveOutcome.ok 1024
    getsize := fun _ => Except.ok 1024 }

/-- Counterexample to C2 as stated: the input line `"Y"` differs from
`"y"`, yet the run performs a network download call. -/
theorem non_y_input_downloads_cex :
    envC2.inputLine ≠ "y" ∧
    (program_run envC2 fs0).calls = [(mediapipeUrl, "face_landmarker.task")] := by
  constructor
  · decide
  · rw [program_run_y envC2 fs0 (by decide)]

/-- C2 (amended): for every input answer whose lowercasing is not
`"y"`, the program performs no network download call at all. -/
theorem non_y_lower_input_skips_download (env : Env) (fs : FS)
    (h : pyLower env.inputLine ≠ "y") :
    (program_run env fs).calls = [] := by
  rw [program_run_not_y env fs h]

/-- Concrete environment for the C2 amended witness: the prompt answer
is `"n"`. -/
def envC2w : Env :=
  { inputLine := "n"
    retrieve := fun _ _ => RetrieveOutcome.ok 1024
    getsize := fun _ => Except.ok 1024 }

/-- Witness for the amended C2 at a concrete environment. -/
theorem non_y_lower_input_skips_download_witness :
    (program_run envC2w fs0).calls = [] :=
  non_y_lower_input_skips_download envC2w fs0 (by decide)

/-- C3: whenever the body of the `try` block raises — the transfer
itself or the subsequent size query — `download_model` catches the
exception, prints that exception's own message on the failure line, and
returns `False`. `download_model` being a total function of the oracle,
no exception escapes it. -/
theorem download_model_catches_all (env : Env) (fs : FS) (url filename : String) :
    (∀ e p, env.retrieve url filename = RetrieveOutcome.err e p →
      (download_model env fs url filename).success = false ∧
      Msg.line ("✗ Failed: " ++ e) ∈ (download_model env fs url filename).output) ∧
    (∀ n e, env.retrieve url filename = RetrieveOutcome.ok n →
      env.getsize filename = Except.error e →
      (download_model env fs url filename).success = false ∧
      Msg.line ("✗ Failed: " ++ e) ∈ (download_model env fs url filename).output) := by
  constructor
  · intro e p hR
    constructor
    · simp [download_model, hR]
    · simp [download_model, hR]
  · intro n e hR hG
    constructor
    · simp [download_model, hR, hG]
    · simp [download_model, hR, hG]

/-- Concrete environment for the C3 witness: the transfer raises. -/
def envC3 : Env :=
  { inputLine := ""
    retrieve := fun _ _ => RetrieveOutcome.err ("connection refused") none
    getsize := fun _ => Except.ok 0 }

/-- Witness for C3 at a concrete environment: the transfer raises with
message `connection refused`, and exactly that message is printed. -/
theorem download_model_catches_all_witness :
    (download_model envC3 fs0 ("http://example.com/m") ("m.bin")).success = false ∧
    Msg.line ("✗ Failed: " ++ "connection refused") ∈
      (download_model envC3 fs0 ("http://example.com/m") ("m.bin")).output :=
  (download_model_catches_all envC3 fs0 ("http://example.com/m") ("m.bin")).1
    ("connection refused") none rfl

/-- The printed output of every run ends with the closing banner line,
whatever happened in between. -/
lemma output_ends_with_banner (xs ys zs : List Msg) :
    (xs ++ (ys ++ (zs ++ postLines))).getLast? = some (Msg.line bar60) := by
  have hpost : (postLines : List Msg) ≠ [] := by simp [postLines]
  have h3 : (zs ++ postLines) ≠ [] := by
    simp [List.append_eq_nil, postLines]
  have h2 : (ys ++ (zs ++ postLines)) ≠ [] := by
    simp [List.append_eq_nil, postLines]
  rw [List.getLast?_append_of_ne_nil xs h2,
      List.getLast?_append_of_ne_nil ys h3,
      List.getLast?_append_of_ne_nil zs hpost]
  rfl

/-- C4: in a run where the download is attempted (lowered input `"y"`)
and fails, the failure message appears in the output, the remaining
instruction text (Option 3 and the closing banner) is still printed,
and the run still ends with the closing banner line; `main` is a total
function, so the process terminates normally. -/
theorem failed_download_run_continues (env : Env) (fs : FS)
    (hy : pyLower env.inputLine = "y")
    (hfail : (download_model env fs mediapipeUrl ("face_landmarker.task")).success = false) :
    (∃ e, Msg.line ("✗ Failed: " ++ e) ∈ (program_run env fs).output) ∧
    Msg.line ("\nOption 3: Convert TensorFlow Model to TFLite") ∈ (program_run env fs).output ∧
    Msg.line ("For now, please manually download the model:") ∈ (program_run env fs).output ∧
    (program_run env fs).output.getLast? = some (Msg.line bar60) := by
  rw [program_run_y env fs hy]
  refine ⟨?_, ?_, ?_, ?_⟩
  · obtain ⟨e, he⟩ := dm_fail_line env fs mediapipeUrl ("face_landmarker.task") hfail
    exact ⟨e, by simp [hfail, List.mem_append, he]⟩
  · simp [hfail, List.mem_append, postLines]
  · simp [hfail, List.mem_append, postLines]
  · simp only [hfail, Bool.false_eq_true, if_false]
    exact output_ends_with_banner preLines _ []

/-- Concrete environment for the C4 witness: the prompt answer is
`"y"` and the transfer raises. -/
def envC4 : Env :=
  { inputLine := "y"
    retrieve := fun _ _ => RetrieveOutcome.err ("network unreachable") none
    getsize := fun _ => Except.ok 0 }

/-- Witness for C4 at a concrete environment. -/
theorem failed_download_run_continues_witness :
    (∃ e, Msg.line ("✗ Failed: " ++ e) ∈ (program_run envC4 fs0).output) ∧
    Msg.line ("\nOption 3: Convert TensorFlow Model to TFLite") ∈ (program_run envC4 fs0).output ∧
    Msg.line ("For now, please manually download the model:") ∈ (program_run envC4 fs0).output ∧
    (program_run envC4 fs0).output.getLast? = some (Msg.line bar60) :=
  failed_download_run_continues envC4 fs0 rfl rfl

/-- C5: when the transfer and the size query both succeed,
`download_model` prints the success line reporting the file size in
megabytes (`getsize(filename) / (1024 * 1024)`) and returns `True`. -/
theorem download_model_success_reports_size (env : Env) (fs : FS)
    (url filename : String) (n bytes : Nat)
    (hR : env.retrieve url filename = RetrieveOutcome.ok n)
    (hG : env.getsize filename = Except.ok bytes) :
    (download_model env fs url filename).success = true ∧
    Msg.sizeReport ((bytes : ℚ) / (1024 * 1024)) ∈
      (download_model env fs url filename).output := by
  constructor
  · simp [download_model, hR, hG]
  · simp [download_model, hR, hG]

/-- Concrete environment for the C5 witness: a 2 MiB file is
downloaded successfully. -/
def envC5 : Env :=
  { inputLine := "y"
    retrieve := fun _ _ => RetrieveOutcome.ok 2097152
    getsize := fun _ => Except.ok 2097152 }

/-- Witness for C5 at a concrete environment. -/
theorem download_model_success_reports_size_witness :
    (download_model envC5 fs0 ("http://example.com/m") ("m.bin")).success = true ∧
    Msg.sizeReport (((2097152 : Nat) : ℚ) / (1024 * 1024)) ∈
      (download_model envC5 fs0 ("http://example.com/m") ("m.bin")).output :=
  download_model_success_reports_size envC5 fs0 ("http://example.com/m") ("m.bin")
    2097152 2097152 rfl rfl

/-- C6: the `MODEL_SOURCES` list is never mutated: after `main` returns
it equals whatever it was at the start of the run, and a full program
run leaves it at its initial, module-level value. -/
theorem model_sources_never_mutated (env : Env) (st : PState) :
    (main_run env st).sources = st.sources ∧
    (program_run env st.fs).sources = MODEL_SOURCES := by
  constructor
  · unfold main_run
    by_cases h : pyLower env.inputLine = "y" <;> simp [h]
  · unfold program_run main_run
    by_cases h : pyLower env.inputLine = "y" <;> simp [h]

/-- C7: a failed `download_model` call performs no cleanup: every path
other than the destination filename is untouched, and a partial file
the failed transfer left at the destination is still there when the
call returns. -/
theorem failed_download_no_cleanup (env : Env) (fs : FS) (url filename : String)
    (hfail : (download_model env fs url filename).success = false) :
    (∀ p, p ≠ filename → (download_model env fs url filename).fs p = fs p) ∧
    (∀ e n, env.retrieve url filename = RetrieveOutcome.err e (some n) →
      (download_model env fs url filename).fs filename = some n) := by
  constructor
  · intro p hp
    exact dm_fs_frame env fs url filename p hp
  · intro e n hR
    simp [download_model, applyRetrieve, hR]

/-- Concrete environment for the C7 witness: the transfer fails after
writing a 5-byte partial file. -/
def envC7 : Env :=
  { inputLine := "y"
    retrieve := fun _ _ => RetrieveOutcome.err ("timeout") (some 5)
    getsize := fun _ => Except.ok 0 }

/-- Witness for C7 at a concrete environment. -/
theorem failed_download_no_cleanup_witness :
    (download_model envC7 fs0 ("http://example.com/m") ("m.bin")).fs ("other.txt") = fs0 ("other.txt") ∧
    (download_model envC7 fs0 ("http://example.com/m") ("m.bin")).fs ("m.bin") = some 5 := by
  have h := failed_download_no_cleanup envC7 fs0 ("http://example.com/m") ("m.bin") rfl
  exact ⟨h.1 ("other.txt") (by decide), h.2 ("timeout") 5 rfl⟩

/-- Counterexample to C8 as stated: the first source descriptor has
four fields, not three — `note` is a dict key exactly like the other
three — so not every element has exactly three fields. -/
theorem source_descriptor_three_fields_cex :
    ((MODEL_SOURCES.get? 0).getD []).length = 4 ∧
    ¬ (∀ s ∈ MODEL_SOURCES, s.length = 3) := by
  decide

/-- C8 (amended): every element of `MODEL_SOURCES` has exactly four
fields, in order a human-readable name, a URL, a destination filename,
and a free-text note. -/
theorem source_descriptor_fields (s : List (String × String))
    (hs : s ∈ MODEL_SOURCES) :
    s.map Prod.fst = [("name"), ("url"), ("filename"), ("note")] ∧ s.length = 4 := by
  have h : ∀ t ∈ MODEL_SOURCES,
      t.map Prod.fst = [("name"), ("url"), ("filename"), ("note")] ∧ t.length = 4 := by
    decide
  exact h s hs

/-- Witness for the amended C8 at the first descriptor. -/
theorem source_descriptor_fields_witness :
    ((MODEL_SOURCES.get? 0).getD []).map Prod.fst =
      [("name"), ("url"), ("filename"), ("note")] ∧
    ((MODEL_SOURCES.get? 0).getD []).length = 4 :=
  source_descriptor_fields ((MODEL_SOURCES.get? 0).getD []) (by decide)

/-- C9: in every run, whatever the input and the oracle outcomes, every
network call fetches `MODEL_SOURCES[1]` — url
`mediapipeUrl`, destination `face_landmarker.task` — and no filesystem
path other than `face_landmarker.task` is modified; in particular the
first descriptor's url is never fetched and
`mobilefacenet_checkpoint.data` is never written. -/
theorem first_source_never_used (env : Env) (fs : FS) :
    (∀ c ∈ (program_run env fs).calls, c = (mediapipeUrl, "face_landmarker.task")) ∧
    (∀ p, p ≠ ("face_landmarker.task" : String) → (program_run env fs).fs p = fs p) := by
  by_cases hy : pyLower env.inputLine = "y"
  · rw [program_run_y env fs hy]
    refine ⟨?_, ?_⟩
    · intro c hc
      simpa using hc
    · intro p hp
      exact dm_fs_frame env fs mediapipeUrl ("face_landmarker.task") p hp
  · rw [program_run_not_y env fs hy]
    exact ⟨by simp, fun p _ => rfl⟩

/-- Concrete environment for the C9 witness: input `"y"`, successful
download. -/
def envC9 : Env :=
  { inputLine := "y"
    retrieve := fun _ _ => RetrieveOutcome.ok 3
    getsize := fun _ => Except.ok 3 }

/-- Witness for C9 at a concrete environment: the run downloads, yet
the first descriptor's destination is untouched. -/
theorem first_source_never_used_witness :
    (program_run envC9 fs0).fs ("mobilefacenet_checkpoint.data") =
      fs0 ("mobilefacenet_checkpoint.data") :=
  (first_source_never_used envC9 fs0).2 ("mobilefacenet_checkpoint.data") (by decide)

/-- C10: `download_model` returns `True` only when both the transfer
and the file-size query succeed; when the transfer completes but the
size query raises, the exception is caught in the same `try` block, the
failure line is printed, and `False` is returned. -/
theorem success_requires_transfer_and_getsize (env : Env) (fs : FS)
    (url filename : String) :
    ((download_model env fs url filename).success = true →
      (∃ n, env.retrieve url filename = RetrieveOutcome.ok n) ∧
      (∃ b, env.getsize filename = Except.ok b)) ∧
    (∀ n e, env.retrieve url filename = RetrieveOutcome.ok n →
      env.getsize filename = Except.error e →
      (download_model env fs url filename).success = false ∧
      Msg.line ("✗ Failed: " ++ e) ∈ (download_model env fs url filename).output) := by
  constructor
  · intro hs
    cases hR : env.retrieve url filename
    case err e p => simp [download_model, hR] at hs
    case ok n =>
      cases hG : env.getsize filename
      case error e => simp [download_model, hR, hG] at hs
      case ok b => exact ⟨⟨n, rfl⟩, ⟨b, rfl⟩⟩
  · intro n e hR hG
    constructor
    · simp [download_model, hR, hG]
    · simp [download_model, hR, hG]

/-- Concrete environment for the C10 witness: the transfer completes
but the size query raises. -/
def envC10 : Env :=
  { inputLine := "y"
    retrieve := fun _ _ => RetrieveOutcome.ok 10
    getsize := fun _ => Except.error ("stat failed") }

/-- Witness for C10 at a concrete environment. -/
theorem success_requires_transfer_and_getsize_witness :
    (download_model envC10 fs0 ("http://example.com/m") ("m.bin")).success = false ∧
    Msg.line ("✗ Failed: " ++ "stat failed") ∈
      (download_model envC10 fs0 ("http://example.com/m") ("m.bin")).output :=
  (success_requires_transfer_and_getsize envC10 fs0 ("http://example.com/m") ("m.bin")).2
    10 ("stat failed") rfl rfl
